import Mathlib

/-!
Verification of the s2t dictation-toggle utility (src/macos/s2t.py).

The Python program is shallowly embedded below: pure helper functions are
translated directly; the effectful toggle entry point is modelled as a pure
function from an environment (the facts the OS supplies during one
invocation: state-file contents, process existence, audio-file status,
transcription result, delivery failures) to a trace of the observable
effects of that invocation (worker spawned, session written, signal sent,
state cleared, transcription and paste attempted, exit code).
-/

namespace S2T

/-! ## Blank classifier — `is_blank_audio`, s2t.py lines 358-370 -/

/-- Characters deleted by check 1 of `is_blank_audio`:
`text.translate(str.maketrans('', '', ' \t\n\r.,!?;:\x27\x22'))`.
`Char.ofNat 39` is the apostrophe, `Char.ofNat 34` the double quote. -/
def blankStripChars : List Char :=
  [' ', '\t', '\n', '\r', '.', ',', '!', '?', ';', ':', Char.ofNat 39, Char.ofNat 34]

/-- The `translate` call of check 1: delete whitespace and common punctuation. -/
def stripBlankChars (text : String) : String :=
  String.mk (text.data.filter (fun c => !blankStripChars.contains c))

/-- The canonical form of check 2:
`''.join(c.lower() for c in text if c.isalpha())` (ASCII letters). -/
def canonAlpha (text : String) : String :=
  String.mk ((text.data.filter Char.isAlpha).map Char.toLower)

/-- `is_blank_audio` (s2t.py 358-370): check 1 keeps only non-stripped
characters and tests emptiness; check 2 compares the case-folded letters
against the literal token. -/
def is_blank_audio (text : String) : Bool :=
  if stripBlankChars text = "" then true
  else if canonAlpha text = "blankaudio" then true
  else false

/-! ## Audio capture — `record_audio` callback, s2t.py lines 217-263

One delivered audio chunk, tagged with the elapsed monotonic time
(`time.monotonic() - start_time`) observed when the callback runs. -/

structure Chunk where
  time : ℚ
  data : List Int
  deriving DecidableEq

/-- The worker state the callback mutates: the `timer_triggered` flag local
to `record_audio`, the `stop_event` threading event, the global `audio_data`
list, plus a count of `stop_event.set()` calls made by the timer branch
(to state that cancellation is raised exactly once). -/
structure CaptureState where
  timer_triggered : Bool
  stop_set : Bool
  audio_data : List (List Int)
  setCalls : Nat
  deriving DecidableEq

/-- The audio callback (s2t.py 217-233) for a run with maximum duration
`maxSeconds`: if the duration bound is configured, not yet triggered, and
elapsed time has reached it, set the flags and return (discarding the
chunk); otherwise append the chunk unless the stop event is set. -/
def callback (maxSeconds : ℚ) (s : CaptureState) (c : Chunk) : CaptureState :=
  if decide (0 < maxSeconds) && !s.timer_triggered && decide (maxSeconds ≤ c.time) then
    { s with timer_triggered := true, stop_set := true, setCalls := s.setCalls + 1 }
  else if !s.stop_set then
    { s with audio_data := s.audio_data ++ [c.data] }
  else s

/-- A capture run with no external cancellation signal: fold the callback
over the delivered chunks starting from the fresh worker state. -/
def runCapture (maxSeconds : ℚ) (chunks : List Chunk) : CaptureState :=
  chunks.foldl (callback maxSeconds) ⟨false, false, [], 0⟩

/-- The WAV-writing step (s2t.py 252-259): if chunks were buffered,
concatenate them in arrival order into one file; otherwise no file. -/
def writeWav (s : CaptureState) : Option (List Int) :=
  if s.audio_data.isEmpty then none else some s.audio_data.flatten

/-! ## SessionState store and toggle controller — s2t.py lines 110-144, 301-325, 373-407, 410-463 -/

/-- The parsed state record: `state.get("pid")` and `state.get("wav_path")`
each yield the field value or `None` when the key is missing. -/
structure StateRecord where
  pid : Option Int
  wav_path : Option String
  deriving DecidableEq

/-- What `json.load` hands back through `read_state` when the file exists
and parses: either a JSON object (the only case with `.get`) or some other
JSON value (list, string, number), on which `state.get(...)` would raise. -/
inductive ReadVal where
  | nonDict : ReadVal
  | record : StateRecord → ReadVal
  deriving DecidableEq

/-- The condition of the state file at the start of one invocation. -/
inductive FileState where
  | missing : FileState
  | unparseable : FileState
  | jsonNonDict : FileState
  | jsonDict : StateRecord → FileState
  deriving DecidableEq

/-- `read_state` (s2t.py 110-119): `None` when the file does not exist;
on a read/parse exception, log the error and return `None`; otherwise the
parsed JSON value. -/
def read_state : FileState → Option ReadVal
  | FileState.missing => none
  | FileState.unparseable => none
  | FileState.jsonNonDict => some ReadVal.nonDict
  | FileState.jsonDict r => some (ReadVal.record r)

/-- Python truthiness of the pid field as tested by `if not pid` (s2t.py
426): `None` and `0` are falsy. -/
def truthyPid : Option Int → Bool
  | none => false
  | some p => decide (p ≠ 0)

/-- Python truthiness of the wav_path field as tested by `if not wav_path`:
`None` and the empty string are falsy. -/
def truthyPath : Option String → Bool
  | none => false
  | some s => decide (s ≠ "")

/-- `stop_daemon` (s2t.py 301-325). `processExists`: whether the pid names
a live process; `exitsInTime`: whether it disappears within the 5-second
poll window; `signalErr`: whether `os.kill` raised something other than
`ProcessLookupError` (caught by the generic handler, returning `False`).
A missing process raises `ProcessLookupError`, returning `True`; all
exceptions are caught, so `stop_daemon` always returns a Bool to `main`. -/
def stop_daemon (processExists exitsInTime signalErr : Bool) : Bool :=
  if processExists = false then true
  else if signalErr then false
  else if exitsInTime then true
  else false

/-- `paste_text` (s2t.py 373-407): `pyperclip.copy(text)` is not inside any
try-block, so a clipboard failure escapes `paste_text` (`Except.error`).
The osascript keystroke runs inside a try-block whose handler logs a
warning, so a keystroke failure yields `Except.ok true` (warned); success
yields `Except.ok false`. -/
def paste_text (clipboardCopyFails keystrokeFails : Bool) : Except Unit Bool :=
  if clipboardCopyFails then Except.error ()
  else Except.ok keystrokeFails

/-- The facts the OS supplies to one toggle invocation. -/
structure Env where
  depsOk : Bool
  stateFile : FileState
  writeStateFails : Bool
  processExists : Bool
  exitsInTime : Bool
  signalErr : Bool
  wavExists : Bool
  wavSize : Nat
  transcript : String
  clipboardCopyFails : Bool
  keystrokeFails : Bool
  deriving DecidableEq

/-- The observable effects of one toggle invocation. -/
structure Trace where
  tookStopPath : Bool := false
  spawnedWorker : Bool := false
  wroteSession : Bool := false
  signalSent : Bool := false
  stopResult : Option Bool := none
  cleared : Bool := false
  transcribeCalled : Bool := false
  pasteAttempted : Bool := false
  pasteWarned : Bool := false
  exitCode : Nat := 0
  deriving DecidableEq

/-- The start branch of `main` via `daemonize_and_record` (s2t.py 266-298,
459-463): fork the worker, then in the parent `write_state` (which calls
`sys.exit(1)` on failure, before the notification) and exit 0. -/
def startPath (env : Env) : Trace :=
  if env.writeStateFails then
    { spawnedWorker := true, exitCode := 1 }
  else
    { spawnedWorker := true, wroteSession := true, exitCode := 0 }

/-- The stop branch of `main` (s2t.py 421-457) for a parsed JSON object:
truthiness check on both fields (clear and exit 1 when it fails), then
`stop_daemon`, unconditional `clear_state`, `notify_end`, audio-file
validation (exit 1 on missing or empty), `transcribe`, the blank filter
(exit 0 without pasting), and `paste_text` (an escaping clipboard exception
reaches the top-level handler, which exits 1). -/
def stopPath (env : Env) (r : StateRecord) : Trace :=
  if truthyPid r.pid && truthyPath r.wav_path then
    let res := stop_daemon env.processExists env.exitsInTime env.signalErr
    let sig := env.processExists && !env.signalErr
    if env.wavExists = false then
      { tookStopPath := true, signalSent := sig, stopResult := some res,
        cleared := true, exitCode := 1 }
    else if env.wavSize = 0 then
      { tookStopPath := true, signalSent := sig, stopResult := some res,
        cleared := true, exitCode := 1 }
    else if is_blank_audio env.transcript then
      { tookStopPath := true, signalSent := sig, stopResult := some res,
        cleared := true, transcribeCalled := true, exitCode := 0 }
    else
      match paste_text env.clipboardCopyFails env.keystrokeFails with
      | Except.error _ =>
        { tookStopPath := true, signalSent := sig, stopResult := some res,
          cleared := true, transcribeCalled := true, pasteAttempted := true,
          exitCode := 1 }
      | Except.ok warned =>
        { tookStopPath := true, signalSent := sig, stopResult := some res,
          cleared := true, transcribeCalled := true, pasteAttempted := true,
          pasteWarned := warned, exitCode := 0 }
  else
    { tookStopPath := true, cleared := true, exitCode := 1 }

/-- `main` (s2t.py 410-463) wrapped in the `__main__` exception handler
(466-473): dependency check (exit 1 when missing), then dispatch on
`read_state`. A parsed non-object value makes `state.get("pid")` raise
`AttributeError`, which only the top-level handler catches: exit 1 with no
cleanup performed. -/
def main (env : Env) : Trace :=
  if env.depsOk = false then { exitCode := 1 }
  else
    match read_state env.stateFile with
    | none => startPath env
    | some ReadVal.nonDict => { tookStopPath := true, exitCode := 1 }
    | some (ReadVal.record r) => stopPath env r

/-! ## Helper lemmas about the capture run -/

/-- Once the timer has triggered and the stop event is set, the callback
ignores every further chunk. -/
lemma callback_absorb (D : ℚ) (s : CaptureState) (c : Chunk)
    (ht : s.timer_triggered = true) (hs : s.stop_set = true) :
    callback D s c = s := by
  unfold callback
  simp [ht, hs]

/-- Folding the callback from a triggered-and-stopped state is a no-op. -/
lemma foldl_callback_absorb (D : ℚ) (cs : List Chunk) (s : CaptureState)
    (ht : s.timer_triggered = true) (hs : s.stop_set = true) :
    cs.foldl (callback D) s = s := by
  induction cs with
  | nil => rfl
  | cons c cs ih =>
    rw [List.foldl_cons, callback_absorb D s c ht hs]
    exact ih

/-- Characterization of a capture run from a fresh state over chunks with
nondecreasing delivery times: the buffer collects exactly the chunks
delivered strictly before the duration bound, the stop event ends set iff
some chunk reached the bound, and the timer called `stop_event.set()` at
most once. -/
lemma runCapture_aux (D : ℚ) (hD : 0 < D) :
    ∀ (cs : List Chunk), cs.Pairwise (fun a b => a.time ≤ b.time) →
    ∀ (buf : List (List Int)),
      cs.foldl (callback D) ⟨false, false, buf, 0⟩ =
        ⟨cs.any (fun c => decide (D ≤ c.time)),
         cs.any (fun c => decide (D ≤ c.time)),
         buf ++ (cs.filter (fun c => decide (c.time < D))).map Chunk.data,
         if cs.any (fun c => decide (D ≤ c.time)) then 1 else 0⟩ := by
  intro cs
  induction cs with
  | nil =>
    intro _ buf
    simp
  | cons c cs ih =>
    intro hp buf
    rcases List.pairwise_cons.mp hp with ⟨hhead, htail⟩
    by_cases hc : D ≤ c.time
    · have hstep : callback D ⟨false, false, buf, 0⟩ c = ⟨true, true, buf, 1⟩ := by
        unfold callback
        simp [hD, hc]
      have hfilter : cs.filter (fun x => decide (x.time < D)) = [] := by
        rw [List.filter_eq_nil_iff]
        intro b hb
        have hble : D ≤ b.time := le_trans hc (hhead b hb)
        simp [not_lt.mpr hble]
      rw [List.foldl_cons, hstep, foldl_callback_absorb D cs _ rfl rfl]
      simp [hc, hfilter, not_lt.mpr hc]
    · have hlt : c.time < D := not_le.mp hc
      have hstep : callback D ⟨false, false, buf, 0⟩ c
          = ⟨false, false, buf ++ [c.data], 0⟩ := by
        unfold callback
        simp [hc]
      rw [List.foldl_cons, hstep, ih htail (buf ++ [c.data])]
      simp [hc, hlt, List.append_assoc]

/-! ## Helper lemmas about the toggle controller -/

/-- With dependencies available and no persisted session, `main` runs the
start branch. -/
lemma main_eq_start (env : Env) (hdeps : env.depsOk = true)
    (h : read_state env.stateFile = none) : main env = startPath env := by
  simp [main, hdeps, h]

/-- With dependencies available and a parsed JSON object in the state file,
`main` runs the stop branch on the parsed record. -/
lemma main_eq_stop (env : Env) (r : StateRecord) (hdeps : env.depsOk = true)
    (h : read_state env.stateFile = some (ReadVal.record r)) :
    main env = stopPath env r := by
  simp [main, hdeps, h]

/-- With dependencies available and a parsed non-object JSON value, `main`
dies in the top-level handler: exit 1, nothing cleaned up. -/
lemma main_eq_nonDict (env : Env) (hdeps : env.depsOk = true)
    (h : read_state env.stateFile = some ReadVal.nonDict) :
    main env = { tookStopPath := true, exitCode := 1 } := by
  simp [main, hdeps, h]

/-- The start branch always spawns a worker. -/
lemma startPath_spawns (env : Env) : (startPath env).spawnedWorker = true := by
  unfold startPath
  split <;> rfl

/-- The start branch never reports the stop path. -/
lemma startPath_not_stop (env : Env) : (startPath env).tookStopPath = false := by
  unfold startPath
  split <;> rfl

/-- The stop branch never spawns a worker, never writes a session, and
always reports the stop path. -/
lemma stopPath_fields (env : Env) (r : StateRecord) :
    (stopPath env r).spawnedWorker = false
    ∧ (stopPath env r).wroteSession = false
    ∧ (stopPath env r).tookStopPath = true := by
  unfold stopPath
  repeat' split
  all_goals simp

/-! ## Claim theorems -/

/-- C2: for a capture run with maximum duration D > 0 and chunks delivered
at nondecreasing elapsed times, the chunk that reaches the bound raises
cancellation exactly once and is discarded, no chunk delivered at or after
the bound is buffered, and the written file is exactly the chunks delivered
before the bound, concatenated in arrival order. -/
theorem C2_duration_cutoff (D : ℚ) (chunks : List Chunk)
    (hD : 0 < D)
    (hsorted : chunks.Pairwise (fun a b => a.time ≤ b.time)) :
    (runCapture D chunks).audio_data
        = (chunks.filter (fun c => decide (c.time < D))).map Chunk.data
    ∧ (runCapture D chunks).setCalls
        = (if chunks.any (fun c => decide (D ≤ c.time)) then 1 else 0)
    ∧ (runCapture D chunks).stop_set = chunks.any (fun c => decide (D ≤ c.time))
    ∧ writeWav (runCapture D chunks)
        = (if (chunks.filter (fun c => decide (c.time < D))).isEmpty then none
           else some ((chunks.filter (fun c => decide (c.time < D))).map Chunk.data).flatten) := by
  have h := runCapture_aux D hD chunks hsorted []
  unfold runCapture
  rw [h]
  refine ⟨by simp, rfl, rfl, ?_⟩
  unfold writeWav
  simp [List.isEmpty_iff]

/-- Concrete chunk sequence for the C2 witness: four chunks at elapsed
times 0, 1, 2, 3 against a 2-second bound. -/
def c2chunks : List Chunk := [⟨0, [1, 1]⟩, ⟨1, [2, 2]⟩, ⟨2, [3, 3]⟩, ⟨3, [4, 4]⟩]

/-- Witness for C2 at D = 2: the chunks at times 2 and 3 are dropped, the
stop event was set exactly once, and the file holds the first two chunks. -/
theorem C2_duration_cutoff_witness :
    (0 : ℚ) < 2
    ∧ c2chunks.Pairwise (fun a b => a.time ≤ b.time)
    ∧ (runCapture 2 c2chunks).audio_data = [[1, 1], [2, 2]]
    ∧ (runCapture 2 c2chunks).setCalls = 1
    ∧ writeWav (runCapture 2 c2chunks) = some [1, 1, 2, 2] := by
  have hD : (0 : ℚ) < 2 := by decide
  have hs : c2chunks.Pairwise (fun a b => a.time ≤ b.time) := by decide
  have h := C2_duration_cutoff 2 c2chunks hD hs
  refine ⟨hD, hs, ?_, ?_, ?_⟩
  · rw [h.1]; decide
  · rw [h.2.1]; decide
  · rw [h.2.2.2]; decide

/-- C1: an invocation that reads a persisted session record takes the stop
path and neither spawns a capture worker nor writes a new session; a fresh
start (spawn, and the session write that follows it) happens exactly when
the read returns absent. -/
theorem C1_toggle_routing (env : Env) (hdeps : env.depsOk = true) :
    (((main env).spawnedWorker = true ∨ (main env).wroteSession = true)
        ↔ read_state env.stateFile = none)
    ∧ ((read_state env.stateFile).isSome = true →
        (main env).tookStopPath = true
        ∧ (main env).spawnedWorker = false
        ∧ (main env).wroteSession = false) := by
  rcases h : read_state env.stateFile with _ | val
  · rw [main_eq_start env hdeps h]
    refine ⟨⟨fun _ => rfl, fun _ => Or.inl (startPath_spawns env)⟩, fun habs => ?_⟩
    simp at habs
  · cases val with
    | nonDict =>
      rw [main_eq_nonDict env hdeps h]
      refine ⟨⟨fun hor => ?_, fun hnone => ?_⟩, fun _ => ⟨rfl, rfl, rfl⟩⟩
      · rcases hor with h1 | h1 <;> simp at h1
      · cases hnone
    | record r =>
      rw [main_eq_stop env r hdeps h]
      have hf := stopPath_fields env r
      refine ⟨⟨fun hor => ?_, fun hnone => ?_⟩, fun _ => ⟨hf.2.2, hf.1, hf.2.1⟩⟩
      · rcases hor with h1 | h1
        · rw [hf.1] at h1; cases h1
        · rw [hf.2.1] at h1; cases h1
      · cases hnone

/-- Environment for the C1 witness: a persisted well-formed session. -/
def envC1 : Env :=
  { depsOk := true, stateFile := FileState.jsonDict ⟨some 123, some "/tmp/s2t/rec.wav"⟩,
    writeStateFails := false, processExists := true, exitsInTime := true,
    signalErr := false, wavExists := true, wavSize := 4,
    transcript := "hello there", clipboardCopyFails := false, keystrokeFails := false }

/-- Witness for C1 at a concrete environment holding a persisted session. -/
theorem C1_toggle_routing_witness :
    envC1.depsOk = true
    ∧ ((((main envC1).spawnedWorker = true ∨ (main envC1).wroteSession = true)
          ↔ read_state envC1.stateFile = none)
        ∧ ((read_state envC1.stateFile).isSome = true →
            (main envC1).tookStopPath = true
            ∧ (main envC1).spawnedWorker = false
            ∧ (main envC1).wroteSession = false)) :=
  ⟨rfl, C1_toggle_routing envC1 rfl⟩

/-- C3: the blank classifier returns true exactly when stripping whitespace
and common punctuation leaves nothing, or the case-folded letters equal
the token "blankaudio"; with the six concrete classifications. -/
theorem C3_blank_classifier :
    (∀ text : String, is_blank_audio text = true ↔
        (stripBlankChars text = "" ∨ canonAlpha text = "blankaudio"))
    ∧ is_blank_audio "   ...!?" = true
    ∧ is_blank_audio "" = true
    ∧ is_blank_audio "Blank Audio" = true
    ∧ is_blank_audio "BLANKAUDIO" = true
    ∧ is_blank_audio "blank audio test" = false
    ∧ is_blank_audio "Hello, world." = false := by
  refine ⟨fun text => ?_, by decide, by decide, by decide, by decide, by decide, by decide⟩
  unfold is_blank_audio
  split
  · simp_all
  · split <;> simp_all

/-- C4: on a stop invocation with a well-formed session, a missing or
zero-length audio file makes the invocation exit 1 without ever invoking
the transcription service. -/
theorem C4_validation_gating (env : Env) (r : StateRecord)
    (hdeps : env.depsOk = true)
    (hread : read_state env.stateFile = some (ReadVal.record r))
    (hpid : truthyPid r.pid = true) (hwav : truthyPath r.wav_path = true)
    (hbad : env.wavExists = false ∨ env.wavSize = 0) :
    (main env).exitCode = 1 ∧ (main env).transcribeCalled = false := by
  rw [main_eq_stop env r hdeps hread]
  unfold stopPath
  rw [hpid, hwav]
  by_cases hw : env.wavExists = false
  · simp [hw]
  · rcases hbad with h1 | h1
    · exact absurd h1 hw
    · simp [hw, h1]

/-- Environment for the C4 witness: a well-formed session whose audio file
is missing. -/
def envC4 : Env :=
  { depsOk := true, stateFile := FileState.jsonDict ⟨some 321, some "/tmp/s2t/gone.wav"⟩,
    writeStateFails := false, processExists := false, exitsInTime := false,
    signalErr := false, wavExists := false, wavSize := 0,
    transcript := "", clipboardCopyFails := false, keystrokeFails := false }

/-- Witness for C4: with the audio file missing, exit code 1 and no
transcription. -/
theorem C4_validation_gating_witness :
    read_state envC4.stateFile = some (ReadVal.record ⟨some 321, some "/tmp/s2t/gone.wav"⟩)
    ∧ (main envC4).exitCode = 1 ∧ (main envC4).transcribeCalled = false :=
  ⟨by decide,
   C4_validation_gating envC4 ⟨some 321, some "/tmp/s2t/gone.wav"⟩
     (by decide) (by decide) (by decide) (by decide) (Or.inl (by decide))⟩

/-- C5: on a stop invocation with a well-formed session the signalling step
always runs, and the session is cleared afterwards in every outcome of
`stop_daemon` (worker exited in time, still alive after the window, gone,
or unsignallable). -/
theorem C5_clear_unconditional (env : Env) (r : StateRecord)
    (hdeps : env.depsOk = true)
    (hread : read_state env.stateFile = some (ReadVal.record r))
    (hpid : truthyPid r.pid = true) (hwav : truthyPath r.wav_path = true) :
    ((main env).stopResult).isSome = true ∧ (main env).cleared = true := by
  rw [main_eq_stop env r hdeps hread]
  unfold stopPath
  rw [hpid, hwav]
  repeat' split
  all_goals simp_all

/-- Environment for the C5 witness: a well-formed session whose worker is
still alive after the 5-second window. -/
def envC5 : Env :=
  { depsOk := true, stateFile := FileState.jsonDict ⟨some 77, some "/tmp/s2t/r5.wav"⟩,
    writeStateFails := false, processExists := true, exitsInTime := false,
    signalErr := false, wavExists := false, wavSize := 0,
    transcript := "", clipboardCopyFails := false, keystrokeFails := false }

/-- Witness for C5: even with the worker stuck past the wait window, the
signal step ran and the session is cleared. -/
theorem C5_clear_unconditional_witness :
    read_state envC5.stateFile = some (ReadVal.record ⟨some 77, some "/tmp/s2t/r5.wav"⟩)
    ∧ ((main envC5).stopResult).isSome = true ∧ (main envC5).cleared = true :=
  ⟨by decide,
   C5_clear_unconditional envC5 ⟨some 77, some "/tmp/s2t/r5.wav"⟩
     (by decide) (by decide) (by decide) (by decide)⟩

/-- Environment refuting C6: the state file holds the JSON object with no
fields, which parses fine. -/
def envC6cex : Env :=
  { depsOk := true, stateFile := FileState.jsonDict ⟨none, none⟩,
    writeStateFails := false, processExists := true, exitsInTime := true,
    signalErr := false, wavExists := true, wavSize := 4,
    transcript := "hello there", clipboardCopyFails := false, keystrokeFails := false }

/-- Counterexample to C6: a parseable record missing both required fields
is not a well-formed session record, yet `read_state` returns it (nothing
is logged, it is not treated as absent) and the invocation decides the
stop path — not start-vs-stop as if Idle — and exits 1. -/
theorem C6_counterexample :
    read_state envC6cex.stateFile = some (ReadVal.record ⟨none, none⟩)
    ∧ (main envC6cex).tookStopPath = true
    ∧ (main envC6cex).spawnedWorker = false
    ∧ (main envC6cex).exitCode = 1 := by decide

/-- C6 (amended): for every state-file content that fails to parse, the
read logs the failure and treats it as absent, so the invocation decides
start-vs-stop as if Idle (it starts a fresh session); such a corrupt
record never crashes or wedges the toggle. -/
theorem C6_amended_parse_failure (env : Env)
    (hdeps : env.depsOk = true)
    (hfile : env.stateFile = FileState.unparseable) :
    read_state env.stateFile = none
    ∧ (main env).tookStopPath = false
    ∧ (main env).spawnedWorker = true := by
  have hr : read_state env.stateFile = none := by rw [hfile]; rfl
  refine ⟨hr, ?_, ?_⟩
  · rw [main_eq_start env hdeps hr]
    exact startPath_not_stop env
  · rw [main_eq_start env hdeps hr]
    exact startPath_spawns env

/-- Environment for the C6 witness: an unparseable state file. -/
def envC6 : Env :=
  { depsOk := true, stateFile := FileState.unparseable,
    writeStateFails := false, processExists := true, exitsInTime := true,
    signalErr := false, wavExists := true, wavSize := 4,
    transcript := "hello there", clipboardCopyFails := false, keystrokeFails := false }

/-- Witness for amended C6: an unparseable state file is treated as absent
and the invocation starts a fresh session. -/
theorem C6_amended_parse_failure_witness :
    read_state envC6.stateFile = none
    ∧ (main envC6).tookStopPath = false
    ∧ (main envC6).spawnedWorker = true :=
  C6_amended_parse_failure envC6 rfl rfl

/-- C7: a stop invocation whose parsed session is missing the pid or the
wav path clears the state and exits 1, without calling `stop_daemon` (so
no process is signalled) and without transcribing. -/
theorem C7_missing_fields (env : Env) (r : StateRecord)
    (hdeps : env.depsOk = true)
    (hread : read_state env.stateFile = some (ReadVal.record r))
    (hmiss : r.pid = none ∨ r.wav_path = none) :
    (main env).cleared = true ∧ (main env).exitCode = 1
    ∧ (main env).stopResult = none ∧ (main env).signalSent = false
    ∧ (main env).transcribeCalled = false := by
  rw [main_eq_stop env r hdeps hread]
  have hfalse : (truthyPid r.pid && truthyPath r.wav_path) = false := by
    rcases hmiss with h1 | h1 <;> simp [truthyPid, truthyPath, h1]
  unfold stopPath
  rw [hfalse]
  simp

/-- Environment for the C7 witness: a parsed session with no pid field. -/
def envC7 : Env :=
  { depsOk := true, stateFile := FileState.jsonDict ⟨none, some "/tmp/s2t/r7.wav"⟩,
    writeStateFails := false, processExists := true, exitsInTime := true,
    signalErr := false, wavExists := true, wavSize := 4,
    transcript := "hello there", clipboardCopyFails := false, keystrokeFails := false }

/-- Witness for C7: missing pid means clear, exit 1, no signal, no
transcription. -/
theorem C7_missing_fields_witness :
    read_state envC7.stateFile = some (ReadVal.record ⟨none, some "/tmp/s2t/r7.wav"⟩)
    ∧ (main envC7).cleared = true ∧ (main envC7).exitCode = 1
    ∧ (main envC7).stopResult = none ∧ (main envC7).signalSent = false
    ∧ (main envC7).transcribeCalled = false :=
  ⟨by decide,
   C7_missing_fields envC7 ⟨none, some "/tmp/s2t/r7.wav"⟩
     (by decide) (by decide) (Or.inl (by decide))⟩

/-- C8: a stop invocation whose session names a nonexistent worker does not
crash: `stop_daemon` reports the process as already exited, the session is
still cleared, and control reaches audio validation, exiting 1 there when
the file is also absent. -/
theorem C8_stale_worker (env : Env) (r : StateRecord)
    (hdeps : env.depsOk = true)
    (hread : read_state env.stateFile = some (ReadVal.record r))
    (hpid : truthyPid r.pid = true) (hwav : truthyPath r.wav_path = true)
    (hproc : env.processExists = false) :
    (main env).stopResult = some true ∧ (main env).cleared = true
    ∧ (env.wavExists = false →
        (main env).exitCode = 1 ∧ (main env).transcribeCalled = false) := by
  rw [main_eq_stop env r hdeps hread]
  have hsd : stop_daemon env.processExists env.exitsInTime env.signalErr = true := by
    unfold stop_daemon
    rw [hproc]
    simp
  unfold stopPath
  rw [hpid, hwav]
  refine ⟨?_, ?_, fun hw => ?_⟩
  · repeat' split
    all_goals simp_all
  · repeat' split
    all_goals simp_all
  · simp [hw]

/-- Environment for the C8 witness: stale pid and a missing audio file. -/
def envC8 : Env :=
  { depsOk := true, stateFile := FileState.jsonDict ⟨some 9999, some "/tmp/s2t/r8.wav"⟩,
    writeStateFails := false, processExists := false, exitsInTime := false,
    signalErr := false, wavExists := false, wavSize := 0,
    transcript := "", clipboardCopyFails := false, keystrokeFails := false }

/-- Witness for C8: nonexistent worker, state cleared, validation fails
with exit 1 because the file is also absent. -/
theorem C8_stale_worker_witness :
    read_state envC8.stateFile = some (ReadVal.record ⟨some 9999, some "/tmp/s2t/r8.wav"⟩)
    ∧ envC8.processExists = false
    ∧ (main envC8).stopResult = some true ∧ (main envC8).cleared = true
    ∧ (main envC8).exitCode = 1 ∧ (main envC8).transcribeCalled = false := by
  have h := C8_stale_worker envC8 ⟨some 9999, some "/tmp/s2t/r8.wav"⟩
    (by decide) (by decide) (by decide) (by decide) (by decide)
  exact ⟨by decide, by decide, h.1, h.2.1, (h.2.2 (by decide)).1, (h.2.2 (by decide)).2⟩

/-- Environment refuting C9: clipboard copy fails on a successful non-blank
transcription. -/
def envC9cex : Env :=
  { depsOk := true, stateFile := FileState.jsonDict ⟨some 222, some "/tmp/s2t/r9.wav"⟩,
    writeStateFails := false, processExists := true, exitsInTime := true,
    signalErr := false, wavExists := true, wavSize := 4,
    transcript := "hello there", clipboardCopyFails := true, keystrokeFails := false }

/-- Counterexample to C9: after a successful non-blank transcription, a
failure to place the text on the clipboard (`pyperclip.copy` is outside
every try-block) escapes to the top-level handler and the invocation exits
1, not 0. -/
theorem C9_counterexample :
    is_blank_audio envC9cex.transcript = false
    ∧ (main envC9cex).transcribeCalled = true
    ∧ (main envC9cex).pasteAttempted = true
    ∧ (main envC9cex).exitCode = 1 := by decide

/-- C9 (amended): after a successful non-blank transcription, a failure to
trigger the paste keystroke is logged as a warning and the invocation
still exits 0; a failure to place the text on the clipboard, however,
propagates as an unhandled error and the invocation exits 1. -/
theorem C9_amended_delivery_errors (env : Env) (r : StateRecord)
    (hdeps : env.depsOk = true)
    (hread : read_state env.stateFile = some (ReadVal.record r))
    (hpid : truthyPid r.pid = true) (hwav : truthyPath r.wav_path = true)
    (hwex : env.wavExists = true) (hwsz : env.wavSize ≠ 0)
    (hnb : is_blank_audio env.transcript = false) :
    (env.clipboardCopyFails = false →
        (main env).exitCode = 0 ∧ (main env).pasteWarned = env.keystrokeFails)
    ∧ (env.clipboardCopyFails = true → (main env).exitCode = 1) := by
  rw [main_eq_stop env r hdeps hread]
  unfold stopPath
  rw [hpid, hwav]
  constructor
  · intro hc
    simp [hwex, hwsz, hnb, paste_text, hc]
  · intro hc
    simp [hwex, hwsz, hnb, paste_text, hc]

/-- Environment for the C9 witness: the paste keystroke fails but the
clipboard copy succeeds. -/
def envC9 : Env :=
  { depsOk := true, stateFile := FileState.jsonDict ⟨some 222, some "/tmp/s2t/r9.wav"⟩,
    writeStateFails := false, processExists := true, exitsInTime := true,
    signalErr := false, wavExists := true, wavSize := 4,
    transcript := "hello there", clipboardCopyFails := false, keystrokeFails := true }

/-- Witness for amended C9: a keystroke failure is only a warning and the
invocation exits 0. -/
theorem C9_amended_delivery_errors_witness :
    is_blank_audio envC9.transcript = false
    ∧ (main envC9).exitCode = 0 ∧ (main envC9).pasteWarned = true := by
  have h := C9_amended_delivery_errors envC9 ⟨some 222, some "/tmp/s2t/r9.wav"⟩
    (by decide) (by decide) (by decide) (by decide) (by decide) (by decide) (by decide)
  exact ⟨by decide, (h.1 (by decide)).1, (h.1 (by decide)).2⟩

/-- C10: a parsed session whose fields are both present but falsy — pid 0
or empty wav path — is treated as malformed by the truthiness test: the
state is cleared and the invocation exits 1. -/
theorem C10_falsy_fields (env : Env) (r : StateRecord)
    (hdeps : env.depsOk = true)
    (hread : read_state env.stateFile = some (ReadVal.record r))
    (_hpresent : r.pid.isSome = true ∧ r.wav_path.isSome = true)
    (hfalsy : r.pid = some 0 ∨ r.wav_path = some "") :
    (main env).tookStopPath = true ∧ (main env).cleared = true
    ∧ (main env).exitCode = 1 := by
  rw [main_eq_stop env r hdeps hread]
  have hfalse : (truthyPid r.pid && truthyPath r.wav_path) = false := by
    rcases hfalsy with h1 | h1 <;> simp [truthyPid, truthyPath, h1]
  unfold stopPath
  rw [hfalse]
  simp

/-- Environment for the C10 witness: both fields present, pid 0. -/
def envC10 : Env :=
  { depsOk := true, stateFile := FileState.jsonDict ⟨some 0, some "/tmp/s2t/r10.wav"⟩,
    writeStateFails := false, processExists := true, exitsInTime := true,
    signalErr := false, wavExists := true, wavSize := 4,
    transcript := "hello there", clipboardCopyFails := false, keystrokeFails := false }

/-- Witness for C10: pid 0 with both fields present is malformed — cleared
and exit 1. -/
theorem C10_falsy_fields_witness :
    read_state envC10.stateFile = some (ReadVal.record ⟨some 0, some "/tmp/s2t/r10.wav"⟩)
    ∧ (main envC10).tookStopPath = true ∧ (main envC10).cleared = true
    ∧ (main envC10).exitCode = 1 :=
  ⟨by decide,
   C10_falsy_fields envC10 ⟨some 0, some "/tmp/s2t/r10.wav"⟩
     (by decide) (by decide) ⟨by decide, by decide⟩ (Or.inl (by decide))⟩

end S2T
